import Mathlib

/-!
# Verification of the NFC point-of-sale offline-first data layer

A shallow embedding, in Lean 4, of the offline-first synchronization layer of
the NFCPaySys mobile client (`src/api/api.js`, `src/api/api-settings.js`,
`src/utils/formatters.js`), together with theorems settling the behavioural
claims about that layer.

Modelling conventions:
* JavaScript numbers are embedded as exact rationals (`ℚ`) for decimal
  amounts and as integers (`ℤ`) for minor-unit (cent) amounts; the explicit
  rounding points of the source (`Math.round`, `toFixed(2)`) are modelled by
  integer rounding on `ℚ`.  `Math.round x` and the `toFixed` rounding both
  round half toward `+∞`, i.e. `round x = ⌊x + 1/2⌋`, which is exactly
  Mathlib's `round`.
* `AsyncStorage` is embedded as an explicit `Store` value threaded through
  every operation; a JS object used as a string-keyed dictionary is an
  association list whose `set` overwrites the first matching key in place.
* Network effects are embedded as explicit oracle parameters (the response
  the remote gateway would give) plus an output trace of the gateway calls
  the operation performed, so "never contacts the server" is the statement
  that the trace is empty.
* A thrown JS exception that the caller observes is `Except.error`; a JS
  `catch` that swallows the error is modelled by the callee returning an
  `Option`/`Except` that the caller ignores.
-/

namespace NFCPay

/-! ## Formatters (`src/utils/formatters.js`)

`centsToAmount` is `parseFloat((cents / 100).toFixed(2))` and
`amountToCents` is `Math.round(amount * 100)`; both first return `0` for a
non-number argument, a case outside this numeric embedding (inputs here are
always numbers, embedded as exact rationals). -/

/-- Rounding of a rational to two decimal places, half toward `+∞`: the
embedding of JavaScript `parseFloat(x.toFixed(2))` on exact values. -/
def roundTo2 (x : ℚ) : ℚ := (round (x * 100) : ℤ) / 100

/-- `centsToAmount` (formatters.js lines 59-64): convert integer cents to a
decimal amount, `parseFloat((cents / 100).toFixed(2))`. -/
def centsToAmount (cents : ℤ) : ℚ := roundTo2 ((cents : ℚ) / 100)

/-- `amountToCents` (formatters.js lines 71-76): convert a decimal amount to
integer cents, `Math.round(amount * 100)` (half rounds toward `+∞`). -/
def amountToCents (amount : ℚ) : ℤ := round (amount * 100)

/-- `normalizeCardId` (formatters.js lines 137-140): remove whitespace and
upper-case the card id (`cardId.replace(/\s+/g, '').toUpperCase()`); empty
(falsy) input yields `''`. -/
def normalizeCardId (cardId : String) : String :=
  if cardId = "" then ""
  else String.mk (((cardId.toList.filter (fun ch => ¬ ch.isWhitespace))).map Char.toUpper)

theorem centsToAmount_eq_div (c : ℤ) : centsToAmount c = (c : ℚ) / 100 := by
  unfold centsToAmount roundTo2
  rw [div_mul_cancel₀ ((c : ℚ)) (by norm_num : (100 : ℚ) ≠ 0), round_intCast]

theorem amountToCents_centsToAmount (c : ℤ) : amountToCents (centsToAmount c) = c := by
  rw [centsToAmount_eq_div]
  unfold amountToCents
  rw [div_mul_cancel₀ ((c : ℚ)) (by norm_num : (100 : ℚ) ≠ 0), round_intCast]

/-- C8: the money round-trips of the formatters.  `centsToAmount ∘
amountToCents` reproduces a decimal amount rounded to two decimal places
(lossy only below cent precision), with `amountToCents 19.999 = 2000` and
`centsToAmount 2000 = 20`; and on integer cent values `amountToCents ∘
centsToAmount` is the identity. -/
theorem money_roundtrip_C8 :
    (∀ a : ℚ, centsToAmount (amountToCents a) = roundTo2 a) ∧
    amountToCents (19999 / 1000) = 2000 ∧
    centsToAmount 2000 = 20 ∧
    (∀ c : ℤ, amountToCents (centsToAmount c) = c) := by
  refine ⟨fun a => ?_, ?_, ?_, amountToCents_centsToAmount⟩
  · rw [centsToAmount_eq_div]
    rfl
  · unfold amountToCents
    rw [round_eq]
    norm_num
  · rw [centsToAmount_eq_div]
    norm_num

/-! ## Data model (§3 of the layer; records as stored in `AsyncStorage`)

JS records carry further optional descriptive fields (`email`, `phone`,
`photoUrl`, …) that no operation of this layer reads or writes; they ride
along unchanged and are represented here by the `name` field. A JS field
that is absent reads as `undefined`, which is falsy; absent booleans are
embedded as `false` and absent optional fields as `none`. -/

/-- A customer record as cached offline (`id`, `cardId`, `balance` in integer
cents, plus a representative descriptive field). -/
structure Customer where
  id : Nat
  name : String
  cardId : String
  balance : ℤ
  deriving Repr, DecidableEq

/-- A transaction line item (`unitPrice` and `amount`), parametric in the
numeric type: `ℚ` before minor-unit conversion, `ℤ` (cents) after. -/
structure LineItem (α : Type) where
  unitPrice : α
  amount : α
  deriving Repr, DecidableEq

/-- A transaction record as cached offline (api.js `createOfflineTransaction`
shape plus the sync-added fields). -/
structure Transaction where
  transactionId : String
  customerId : Option Nat
  cardId : String
  type : String
  amount : ℤ
  items : List (LineItem ℤ)
  status : String
  offlineCreated : Bool
  synced : Bool
  syncError : Option String
  createdAt : Nat
  deriving Repr, DecidableEq

/-- The `AsyncStorage` contents this layer owns: the `offline_customers`
collection, the `offline_customers_by_card` index (a JS object, i.e. a
string-keyed dictionary embedded as an association list in insertion order),
and the `offline_transactions` collection. -/
structure Store where
  customers : List Customer
  cardIndex : List (String × Customer)
  transactions : List Transaction
  deriving Repr, DecidableEq

/-- The store of a fresh install: every key absent, every collection empty. -/
def emptyStore : Store := { customers := [], cardIndex := [], transactions := [] }

/-- Setting a property on a JS object used as a dictionary: overwrite the
first (only) binding of the key in place, else append. -/
def setKey (k : String) (v : Customer) : List (String × Customer) → List (String × Customer)
  | [] => [(k, v)]
  | (k', v') :: rest => if k' = k then (k, v) :: rest else (k', v') :: setKey k v rest

/-- Reading a property of a JS object used as a dictionary (`obj[k]`);
an absent key reads as `undefined`, i.e. `none`. -/
def getKey (k : String) : List (String × Customer) → Option Customer
  | [] => none
  | (k', v) :: rest => if k' = k then some v else getKey k rest

/-- The `findIndex`/replace-or-`push` upsert of api.js `cacheOfflineCustomer`
(lines 342-347): replace the first record with the same `id`, else append. -/
def upsertById (c : Customer) : List Customer → List Customer
  | [] => [c]
  | c' :: rest => if c'.id = c.id then c :: rest else c' :: upsertById c rest

/-- `customerAPI.cacheOfflineCustomer` (api.js lines 335-362): upsert the
customer by `id` into `offline_customers`, then, when `customer.cardId` is
truthy (a non-empty string), overwrite that one key of the
`offline_customers_by_card` index with the customer.  The raw `cardId`
string is used as the index key. -/
def cacheOfflineCustomer (c : Customer) (store : Store) : Store :=
  { store with
    customers := upsertById c store.customers
    cardIndex := if c.cardId ≠ "" then setKey c.cardId c store.cardIndex else store.cardIndex }

/-- `customerAPI.getOfflineCustomerByCardId` (api.js lines 369-379): read the
card index and return `cardIndex[cardId] || null`, the raw string as key. -/
def getOfflineCustomerByCardId (cardId : String) (store : Store) : Option Customer :=
  getKey cardId store.cardIndex

/-- `customerAPI.getOfflineCustomerById` (api.js lines 386-396):
`customers.find(c => c.id === id) || null`. -/
def getOfflineCustomerById (id : Nat) (store : Store) : Option Customer :=
  store.customers.find? (fun c => c.id = id)

/-! ## Connectivity Policy (`shouldOperateOffline`, api.js lines 112-135) -/

/-- The observable outcome of the `/health` reachability probe: an `ok`
response, a non-success HTTP response, or a network error (which includes
the abort fired by the probe's timeout). -/
inductive ProbeResult
  | success
  | httpFail
  | netError
  deriving Repr, DecidableEq

/-- The fixed timeout, in milliseconds, armed around the `/health` probe
(api.js line 122); on expiry the fetch aborts and the probe lands in the
`netError` case. -/
def healthProbeTimeoutMs : Nat := 3000

/-- `shouldOperateOffline` (api.js lines 112-135): `true` immediately when
the manual `offlineMode` flag is set; otherwise probe `/health` and return
`!response.ok`, with every thrown error caught and converted to `true`.
It is a total function of the current flag and the current probe outcome:
it cannot raise, and nothing is cached across calls. -/
def shouldOperateOffline (offlineMode : Bool) (probe : ProbeResult) : Bool :=
  if offlineMode then true
  else
    match probe with
    | ProbeResult.success => false
    | ProbeResult.httpFail => true
    | ProbeResult.netError => true

/-! ## Remote Gateway calls

Operations return, besides their result and the updated store, the list of
HTTP calls they issued against the configured base URL, in order, with the
monetary payload where a claim depends on it. -/

/-- One HTTP call of the Remote Gateway, with the payload fields the claims
are about. -/
inductive GwCall
  | createTx
  | registerCustomer
  | updBalance (customerId : Nat) (amountCents : ℤ)
  | syncTx (payload : Transaction)
  deriving Repr, DecidableEq

/-- `customerAPI.register` (api.js lines 216-245): throws
`'Cannot register new customers in offline mode'` when the Connectivity
Policy reports offline, before any network call or cache write; online it
POSTs `/customers` and on success mirrors the created record into the cache,
on failure rethrows. The gateway outcome is the oracle `gw`. -/
def register (offline : Bool) (gw : Except String Customer) (store : Store) :
    Except String Customer × Store × List GwCall :=
  if offline then
    (Except.error "Cannot register new customers in offline mode", store, [])
  else
    match gw with
    | Except.ok c => (Except.ok c, cacheOfflineCustomer c store, [GwCall.registerCustomer])
    | Except.error e => (Except.error e, store, [GwCall.registerCustomer])

/-- `customerAPI.getByCardId` (api.js lines 144-173): offline, read the cache
index; online, GET `/customers/card/<cardId>` (oracle `gw`), mirroring a
success into the cache and falling back to the cache index on any failure.
The raw `cardId` string is used both in the URL and as the cache key. -/
def getByCardId (offline : Bool) (gw : Option Customer) (cardId : String) (store : Store) :
    Option Customer × Store :=
  if offline then
    (getOfflineCustomerByCardId cardId store, store)
  else
    match gw with
    | some c => (some c, cacheOfflineCustomer c store)
    | none => (getOfflineCustomerByCardId cardId store, store)

/-- `customerAPI.updateOfflineBalance` (api.js lines 418-437): look the
customer up in the cache by id (throwing when absent, i.e. `none` here with
the store untouched), add `amountToCents amount` to its `balance`, and write
it back through `cacheOfflineCustomer`. -/
def updateOfflineBalance (customerId : Nat) (amount : ℚ) (store : Store) :
    Option Customer × Store :=
  match getOfflineCustomerById customerId store with
  | none => (none, store)
  | some c =>
    let c' := { c with balance := c.balance + amountToCents amount }
    (some c', cacheOfflineCustomer c' store)

/-- `customerAPI.updateBalance` (api.js lines 253-285): offline, apply the
delta to the cached record; online, POST `/customers/<id>/balance` with
`{amount: amountToCents amount}` (oracle `gwBal`), mirroring a success into
the cache and falling back to the offline delta on failure. -/
def updateBalance (offline : Bool) (gwBal : Option Customer) (customerId : Nat) (amount : ℚ)
    (store : Store) : Option Customer × Store × List GwCall :=
  if offline then
    let ub := updateOfflineBalance customerId amount store
    (ub.1, ub.2, [])
  else
    match gwBal with
    | some c =>
      (some c, cacheOfflineCustomer c store, [GwCall.updBalance customerId (amountToCents amount)])
    | none =>
      let ub := updateOfflineBalance customerId amount store
      (ub.1, ub.2, [GwCall.updBalance customerId (amountToCents amount)])

/-! ## Transaction Repository (`transactionAPI`, api.js lines 441-761) -/

/-- The caller-supplied transaction data (api.js `create`'s
`transactionData`), monetary fields as decimal numbers.  The source guards
each conversion with `typeof x === 'number'` and passes non-numbers through;
in this numeric embedding the monetary fields are always numbers. -/
structure TransactionData where
  customerId : Option Nat
  cardId : String
  type : String
  amount : ℚ
  items : List (LineItem ℚ)
  deriving Repr, DecidableEq

/-- The `processedData` of api.js `create` (lines 452-471): `amount` and each
item's `unitPrice`/`amount` converted to cents with `amountToCents`; all
other fields spread through unchanged. -/
structure ProcessedData where
  customerId : Option Nat
  cardId : String
  type : String
  amount : ℤ
  items : List (LineItem ℤ)
  deriving Repr, DecidableEq

/-- Minor-unit normalization step of api.js `create` (lines 452-471). -/
def processTransactionData (d : TransactionData) : ProcessedData :=
  { customerId := d.customerId
    cardId := d.cardId
    type := d.type
    amount := amountToCents d.amount
    items := d.items.map (fun it => ⟨amountToCents it.unitPrice, amountToCents it.amount⟩) }

/-- `transactionAPI.createOfflineTransaction` (api.js lines 621-650): build
the record with temporary id `offline-<Date.now()>-<Math.floor(random*1000)>`
(the random component is a value in `0..999`, here `rand % 1000`),
`status = 'pending'`, `offlineCreated = true`, `createdAt = now`, and push it
onto the end of the `offline_transactions` collection. -/
def createOfflineTransaction (now rand : Nat) (d : ProcessedData) (store : Store) :
    Transaction × Store :=
  let t : Transaction :=
    { transactionId := "offline-" ++ toString now ++ "-" ++ toString (rand % 1000)
      customerId := d.customerId
      cardId := d.cardId
      type := d.type
      amount := d.amount
      items := d.items
      status := "pending"
      offlineCreated := true
      synced := false
      syncError := none
      createdAt := now }
  (t, { store with transactions := store.transactions ++ [t] })

/-- The environment of one `transactionAPI.create` call: the Connectivity
Policy's report (constant across the call, as when the manual flag forces
it), the Remote Gateway's responses to a POST `/transactions` and to the
nested balance POST, and the clock/randomness the temporary id draws on. -/
structure CreateEnv where
  offline : Bool
  gwCreate : Option Transaction
  gwBalance : Option Customer
  now : Nat
  rand : Nat
  deriving Repr, DecidableEq

/-- The observable outcome of `transactionAPI.create`: the returned
transaction, the updated store, the gateway calls issued, and the
`(customerId, amount)` argument pair of the `updateBalance` call when one
was made. -/
structure CreateOut where
  tx : Transaction
  store : Store
  gwCalls : List GwCall
  balCall : Option (Nat × ℚ)
  deriving Repr, DecidableEq

/-- `transactionAPI.create` (api.js lines 447-517): normalize monetary
fields; dispatch on the Connectivity Policy's report read once up front —
offline goes to `createOfflineTransaction`, online POSTs `/transactions` and
falls back to `createOfflineTransaction` on any failure (non-ok status and
network error both throw into the same `catch`).  Then, when the resulting
transaction's `customerId` is truthy (present and nonzero), call
`customerAPI.updateBalance` with `-1 * centsToAmount transaction.amount`,
swallowing any error of that step (the result `Option` of `updateBalance`
is discarded), and return the transaction. -/
def create (env : CreateEnv) (d : TransactionData) (store : Store) : CreateOut :=
  let processed := processTransactionData d
  let dispatched : Transaction × Store × List GwCall :=
    if env.offline then
      let co := createOfflineTransaction env.now env.rand processed store
      (co.1, co.2, [])
    else
      match env.gwCreate with
      | some t => (t, store, [GwCall.createTx])
      | none =>
        let co := createOfflineTransaction env.now env.rand processed store
        (co.1, co.2, [GwCall.createTx])
  let tx := dispatched.1
  let store1 := dispatched.2.1
  let calls1 := dispatched.2.2
  match tx.customerId with
  | some cid =>
    if cid ≠ 0 then
      let amt : ℚ := -1 * centsToAmount tx.amount
      let ub := updateBalance env.offline env.gwBalance cid amt store1
      { tx := tx, store := ub.2.1, gwCalls := calls1 ++ ub.2.2, balCall := some (cid, amt) }
    else
      { tx := tx, store := store1, gwCalls := calls1, balCall := none }
  | none => { tx := tx, store := store1, gwCalls := calls1, balCall := none }

/-! ## Sync Engine (`syncOfflineTransactions`, api.js lines 702-760) -/

/-- The filter of api.js line 710: a cached transaction is selected for sync
iff `offlineCreated` is truthy and `status` is `'pending'`. -/
def isPending (t : Transaction) : Bool := t.offlineCreated && t.status == "pending"

/-- The destructuring `const { offlineCreated, ...syncData } = transaction`
(api.js line 730): the copy submitted over the wire lacks the
`offlineCreated` key (an absent key reads as the JS default, `false`). -/
def stripOffline (t : Transaction) : Transaction := { t with offlineCreated := false }

/-- The per-transaction outcome of the sync loop body (api.js lines 741-752):
on a 2xx response set `status := 'completed'` and `synced := true`; on a
failure (non-ok status or network error, message `e`) set
`syncError := e` and touch nothing else. -/
def applySyncOutcome (r : Option String) (t : Transaction) : Transaction :=
  match r with
  | none => { t with status := "completed", synced := true }
  | some e => { t with syncError := some e }

/-- The result record of `syncOfflineTransactions`. -/
structure SyncResult where
  success : Nat
  failed : Nat
  total : Nat
  deriving Repr, DecidableEq

/-- The `for (const transaction of pendingTransactions)` loop of api.js
lines 727-754, fused with the selection filter: walking the full cached
collection and processing exactly the selected (pending) elements, in
order, is the same as walking the filtered array while mutating the shared
element references in place.  `gw k` is the server's answer to the `k`-th
submission (`none` = accepted, `some e` = failed with message `e`); the
submission itself (POST `/transactions/sync` with the stripped copy) is
recorded whatever the outcome.  Returns the updated collection, the
`success` and `failed` counters, and the calls issued. -/
def syncLoop (gw : Nat → Option String) : Nat → List Transaction →
    List Transaction × Nat × Nat × List GwCall
  | _, [] => ([], 0, 0, [])
  | k, t :: rest =>
    if isPending t then
      let r := syncLoop gw (k + 1) rest
      (applySyncOutcome (gw k) t :: r.1,
       (if (gw k).isNone then r.2.1 + 1 else r.2.1),
       (if (gw k).isNone then r.2.2.1 else r.2.2.1 + 1),
       GwCall.syncTx (stripOffline t) :: r.2.2.2)
    else
      let r := syncLoop gw k rest
      (t :: r.1, r.2.1, r.2.2.1, r.2.2.2)

/-- `transactionAPI.syncOfflineTransactions` (api.js lines 702-760): throw
`'Cannot sync transactions while in offline mode'` when the Connectivity
Policy reports offline; select the pending offline transactions; return
`{success := 0, failed := 0, total := 0}` with no network call and no store
write when there are none; otherwise submit each selected transaction
sequentially and persist the full updated collection in one bulk
`setItem`. -/
def syncOfflineTransactions (offline : Bool) (gw : Nat → Option String) (store : Store) :
    Except String SyncResult × Store × List GwCall :=
  if offline then
    (Except.error "Cannot sync transactions while in offline mode", store, [])
  else
    let pendingTransactions := store.transactions.filter isPending
    if pendingTransactions.length = 0 then
      (Except.ok { success := 0, failed := 0, total := 0 }, store, [])
    else
      let r := syncLoop gw 0 store.transactions
      (Except.ok { success := r.2.1, failed := r.2.2.1, total := pendingTransactions.length },
       { store with transactions := r.1 }, r.2.2.2)

/-- The number of selected (pending) transactions strictly before position
`i` of the cached collection: the submission index the `i`-th element gets
when it is itself selected. -/
def pendingBefore (l : List Transaction) (i : Nat) : Nat :=
  ((l.take i).filter isPending).length

/-! ## Helper lemmas -/

theorem cacheOfflineCustomer_transactions (c : Customer) (s : Store) :
    (cacheOfflineCustomer c s).transactions = s.transactions := rfl

theorem updateOfflineBalance_transactions (cid : Nat) (amt : ℚ) (s : Store) :
    (updateOfflineBalance cid amt s).2.transactions = s.transactions := by
  rcases hc : getOfflineCustomerById cid s with _ | c <;>
    simp [updateOfflineBalance, hc, cacheOfflineCustomer]

theorem updateBalance_transactions (offline : Bool) (gwBal : Option Customer) (cid : Nat)
    (amt : ℚ) (s : Store) :
    (updateBalance offline gwBal cid amt s).2.1.transactions = s.transactions := by
  cases offline <;> rcases gwBal with _ | c <;>
    simp [updateBalance, cacheOfflineCustomer, updateOfflineBalance_transactions]

theorem updateBalance_calls_offline (gwBal : Option Customer) (cid : Nat) (amt : ℚ) (s : Store) :
    (updateBalance true gwBal cid amt s).2.2 = [] := by
  simp [updateBalance]

/-! ## Claim theorems: Connectivity Policy and Customer Repository -/

/-- C4: `shouldOperateOffline` returns `true` immediately whenever the manual
offline-mode flag is set; otherwise the decision is `false` exactly on an
explicit success of the (3000 ms-bounded) health probe and `true` on a
non-success response, a network error, or a timeout.  The embedding is a
total function of the current flag and the current probe outcome, so every
probe failure is converted to the boolean `true` (the operation never
raises) and the decision is recomputed from fresh inputs on every call. -/
theorem shouldOperateOffline_policy_C4 :
    (∀ (m : Bool) (p : ProbeResult),
        shouldOperateOffline m p = (m || decide (p ≠ ProbeResult.success))) ∧
    (∀ p, shouldOperateOffline true p = true) ∧
    shouldOperateOffline false ProbeResult.success = false ∧
    shouldOperateOffline false ProbeResult.httpFail = true ∧
    shouldOperateOffline false ProbeResult.netError = true ∧
    healthProbeTimeoutMs = 3000 := by
  refine ⟨fun m p => ?_, fun p => rfl, rfl, rfl, rfl, rfl⟩
  cases m <;> cases p <;> rfl

/-- C6: `customerAPI.register` called while the Connectivity Policy reports
offline fails with the explicit offline-registration error, issues no
gateway call, and performs no cache write — there is no offline queue or
fallback for registration (unlike transaction creation). -/
theorem register_offline_C6 :
    ∀ (gw : Except String Customer) (store : Store),
      register true gw store =
        (Except.error "Cannot register new customers in offline mode", store, []) := by
  intro gw store
  rfl

/-! ## Claim theorems: transaction creation -/

/-- C2: with the Connectivity Policy reporting offline at the dispatch check,
`transactionAPI.create` issues no Remote Gateway call and yields a
transaction with temporary id `offline-<epoch-millis>-<random 0..999>`,
`status = 'pending'`, `offlineCreated = true`, `createdAt` the current time,
appended to the end of the cached transaction collection. -/
theorem create_offline_C2 (gwC : Option Transaction) (gwB : Option Customer)
    (now rand : Nat) (d : TransactionData) (store : Store) :
    (create ⟨true, gwC, gwB, now, rand⟩ d store).gwCalls = [] ∧
    (create ⟨true, gwC, gwB, now, rand⟩ d store).tx.transactionId =
      "offline-" ++ toString now ++ "-" ++ toString (rand % 1000) ∧
    rand % 1000 < 1000 ∧
    (create ⟨true, gwC, gwB, now, rand⟩ d store).tx.status = "pending" ∧
    (create ⟨true, gwC, gwB, now, rand⟩ d store).tx.offlineCreated = true ∧
    (create ⟨true, gwC, gwB, now, rand⟩ d store).tx.createdAt = now ∧
    (create ⟨true, gwC, gwB, now, rand⟩ d store).store.transactions =
      store.transactions ++ [(create ⟨true, gwC, gwB, now, rand⟩ d store).tx] := by
  have hm : rand % 1000 < 1000 := Nat.mod_lt _ (by norm_num)
  rcases hcid : d.customerId with _ | cid
  · simp [create, createOfflineTransaction, processTransactionData, hcid, hm]
  · by_cases hc : cid = 0
    · simp [create, createOfflineTransaction, processTransactionData, hcid, hc, hm]
    · simp [create, createOfflineTransaction, processTransactionData, hcid, hc, hm,
        updateBalance_transactions, updateBalance_calls_offline]

/-- C3: when the online submission of a created transaction fails (network
error and non-success status both land in the same `catch`), `create` falls
back to the offline path: the transaction is appended to the local queue
with `status = 'pending'` and `offlineCreated = true`, and `create` still
returns it instead of propagating the failure (its first gateway call being
the failed POST `/transactions`). -/
theorem create_online_fallback_C3 (gwB : Option Customer)
    (now rand : Nat) (d : TransactionData) (store : Store) :
    (create ⟨false, none, gwB, now, rand⟩ d store).tx.status = "pending" ∧
    (create ⟨false, none, gwB, now, rand⟩ d store).tx.offlineCreated = true ∧
    (create ⟨false, none, gwB, now, rand⟩ d store).store.transactions =
      store.transactions ++ [(create ⟨false, none, gwB, now, rand⟩ d store).tx] ∧
    (create ⟨false, none, gwB, now, rand⟩ d store).gwCalls.head? = some GwCall.createTx := by
  rcases hcid : d.customerId with _ | cid
  · simp [create, createOfflineTransaction, processTransactionData, hcid]
  · by_cases hc : cid = 0
    · simp [create, createOfflineTransaction, processTransactionData, hcid, hc]
    · simp [create, createOfflineTransaction, processTransactionData, hcid, hc,
        updateBalance_transactions]

/-- C5: whenever `create` yields a transaction carrying a `customerId` (a
truthy id, on either path and for every transaction type), it invokes
`updateBalance` on that customer with the decimal delta
`-1 * centsToAmount tx.amount` — whose minor-unit value is exactly
`-tx.amount`, always a debit — and a failure of that step is swallowed:
whatever `updateBalance` does or fails to do, `create` returns the very
transaction the dispatch step produced and the persisted transaction
collection is the one the dispatch step wrote (appended offline or online
fallback, untouched on online success). -/
theorem create_balance_debit_C5 (env : CreateEnv) (d : TransactionData) (store : Store)
    (cid : Nat) (hcid : (create env d store).tx.customerId = some cid) (hz : cid ≠ 0) :
    (create env d store).balCall = some (cid, -1 * centsToAmount (create env d store).tx.amount) ∧
    amountToCents (-1 * centsToAmount (create env d store).tx.amount) =
      -(create env d store).tx.amount ∧
    (env.offline = true ∨ env.gwCreate = none →
      (create env d store).store.transactions =
        store.transactions ++ [(create env d store).tx]) ∧
    (∀ t, env.offline = false → env.gwCreate = some t →
      (create env d store).tx = t ∧
      (create env d store).store.transactions = store.transactions) := by
  have hcents : ∀ z : ℤ, amountToCents (-centsToAmount z) = -z := by
    intro z
    rw [centsToAmount_eq_div]
    unfold amountToCents
    rw [show -((z : ℚ) / 100) * 100 = ((-z : ℤ) : ℚ) by push_cast; ring, round_intCast]
  obtain ⟨off, gwC, gwB, now, rand⟩ := env
  cases off
  case true =>
    rcases hd : d.customerId with _ | cid'
    · simp [create, createOfflineTransaction, processTransactionData, hd] at hcid
    · by_cases hz' : cid' = 0
      · simp [create, createOfflineTransaction, processTransactionData, hd, hz'] at hcid
        omega
      · have hc : cid' = cid := by
          simpa [create, createOfflineTransaction, processTransactionData, hd, hz'] using hcid
        subst hc
        simp [create, createOfflineTransaction, processTransactionData, hd, hz', hcents,
          updateBalance_transactions]
  case false =>
    rcases gwC with _ | t
    · rcases hd : d.customerId with _ | cid'
      · simp [create, createOfflineTransaction, processTransactionData, hd] at hcid
      · by_cases hz' : cid' = 0
        · simp [create, createOfflineTransaction, processTransactionData, hd, hz'] at hcid
          omega
        · have hc : cid' = cid := by
            simpa [create, createOfflineTransaction, processTransactionData, hd, hz'] using hcid
          subst hc
          simp [create, createOfflineTransaction, processTransactionData, hd, hz', hcents,
            updateBalance_transactions]
    · rcases ht : t.customerId with _ | cid'
      · simp [create, ht] at hcid
      · by_cases hz' : cid' = 0
        · simp [create, ht, hz'] at hcid
          omega
        · have hc : cid' = cid := by
            simpa [create, ht, hz'] using hcid
          subst hc
          simp [create, ht, hz', hcents, updateBalance_transactions]

/-! ## Helper lemmas for the card-id index and the sync loop -/

theorem getKey_setKey_self (k : String) (v : Customer) :
    ∀ m : List (String × Customer), getKey k (setKey k v m) = some v
  | [] => by simp [setKey, getKey]
  | (k', v') :: rest => by
    by_cases h : k' = k <;> simp [setKey, getKey, h, getKey_setKey_self k v rest]

theorem getKey_setKey_ne (k k' : String) (v : Customer) (h : k' ≠ k) :
    ∀ m : List (String × Customer), getKey k' (setKey k v m) = getKey k' m
  | [] => by simp [setKey, getKey, Ne.symm h]
  | (k'', v'') :: rest => by
    by_cases h2 : k'' = k <;>
      by_cases h3 : k'' = k' <;>
      simp_all [setKey, getKey, getKey_setKey_ne k k' v h rest]

theorem mem_upsertById (c : Customer) :
    ∀ l : List Customer, c ∈ upsertById c l
  | [] => by simp [upsertById]
  | c' :: rest => by
    by_cases h : c'.id = c.id <;> simp [upsertById, h, mem_upsertById c rest]

theorem upsertById_of_fresh (c : Customer) :
    ∀ l : List Customer, (∀ x ∈ l, x.id ≠ c.id) → upsertById c l = l ++ [c]
  | [], _ => by simp [upsertById]
  | c' :: rest, h => by
    have h' : c'.id ≠ c.id := h c' (by simp)
    simp [upsertById, h', upsertById_of_fresh c rest (fun x hx => h x (by simp [hx]))]

theorem syncLoop_length (gw : Nat → Option String) :
    ∀ (k : Nat) (l : List Transaction), (syncLoop gw k l).1.length = l.length
  | _, [] => rfl
  | k, t :: rest => by
    by_cases h : isPending t <;>
      simp [syncLoop, h, syncLoop_length gw (k + 1) rest, syncLoop_length gw k rest]

theorem syncLoop_counts (gw : Nat → Option String) :
    ∀ (k : Nat) (l : List Transaction),
      (syncLoop gw k l).2.1 + (syncLoop gw k l).2.2.1 = (l.filter isPending).length
  | _, [] => rfl
  | k, t :: rest => by
    by_cases h : isPending t
    · have ih := syncLoop_counts gw (k + 1) rest
      rcases hg : gw k with _ | e <;> simp [syncLoop, h, hg, List.filter_cons] <;> omega
    · have ih := syncLoop_counts gw k rest
      simp [syncLoop, h, List.filter_cons]
      omega

theorem syncLoop_calls (gw : Nat → Option String) :
    ∀ (k : Nat) (l : List Transaction),
      (syncLoop gw k l).2.2.2 =
        (l.filter isPending).map (fun t => GwCall.syncTx (stripOffline t))
  | _, [] => rfl
  | k, t :: rest => by
    by_cases h : isPending t <;>
      simp [syncLoop, h, List.filter_cons, syncLoop_calls gw (k + 1) rest,
        syncLoop_calls gw k rest]

theorem pendingBefore_cons_succ (t : Transaction) (rest : List Transaction) (i : Nat) :
    pendingBefore (t :: rest) (i + 1) =
      (if isPending t then 1 else 0) + pendingBefore rest i := by
  by_cases h : isPending t
  · simp [pendingBefore, List.filter_cons, h]
    omega
  · simp [pendingBefore, List.filter_cons, h]

theorem syncLoop_get (gw : Nat → Option String) :
    ∀ (k : Nat) (l : List Transaction) (i : Nat),
      (syncLoop gw k l).1[i]? =
        (l[i]?).map
          (fun t => if isPending t then applySyncOutcome (gw (k + pendingBefore l i)) t else t)
  | _, [], i => by simp [syncLoop]
  | k, t :: rest, 0 => by
    by_cases h : isPending t <;> simp [syncLoop, h, pendingBefore]
  | k, t :: rest, i + 1 => by
    by_cases h : isPending t <;>
      simp [syncLoop, h, pendingBefore_cons_succ, syncLoop_get gw (k + 1) rest i,
        syncLoop_get gw k rest i, Nat.add_assoc]

/-! ## Claim theorems: Sync Engine -/

/-- C1: `syncOfflineTransactions` (i) fails with the explicit offline error,
changing no stored transaction, when the Connectivity Policy reports
offline; (ii) selects exactly the cached transactions with
`offlineCreated = true` and `status = 'pending'`, in append order, and when
there are none returns `{success := 0, failed := 0, total := 0}` without
contacting the server; (iii) returns counts with
`success + failed = total =` the number of selected transactions; (iv)
submits exactly the selected transactions, sequentially in append order,
each stripped of `offlineCreated`; (v) rewrites each stored transaction
in place — a selected one by the per-outcome update (success:
`status := 'completed'`, `synced := true`; failure: `syncError` recorded,
`status` left `'pending'`, still queued), an unselected one untouched —
persisting the full collection in one bulk write that leaves the customer
collections alone. -/
theorem syncOfflineTransactions_C1 (gw : Nat → Option String) (store : Store) :
    syncOfflineTransactions true gw store =
      (Except.error "Cannot sync transactions while in offline mode", store, []) ∧
    (store.transactions.filter isPending = [] →
      syncOfflineTransactions false gw store =
        (Except.ok { success := 0, failed := 0, total := 0 }, store, [])) ∧
    (∃ s f, (syncOfflineTransactions false gw store).1 =
        Except.ok { success := s, failed := f,
                    total := (store.transactions.filter isPending).length } ∧
      s + f = (store.transactions.filter isPending).length) ∧
    (syncOfflineTransactions false gw store).2.2 =
      (store.transactions.filter isPending).map (fun t => GwCall.syncTx (stripOffline t)) ∧
    (∀ i : Nat, (syncOfflineTransactions false gw store).2.1.transactions[i]? =
      (store.transactions[i]?).map
        (fun t =>
          if isPending t then applySyncOutcome (gw (pendingBefore store.transactions i)) t
          else t)) ∧
    (syncOfflineTransactions false gw store).2.1.customers = store.customers ∧
    (syncOfflineTransactions false gw store).2.1.cardIndex = store.cardIndex := by
  refine ⟨rfl, ?_, ?_, ?_, ?_, ?_, ?_⟩
  all_goals by_cases hp : store.transactions.filter isPending = []
  · intro _
    simp [syncOfflineTransactions, hp]
  · intro h
    exact absurd h hp
  · refine ⟨0, 0, ?_, ?_⟩ <;> simp [syncOfflineTransactions, hp]
  · refine ⟨(syncLoop gw 0 store.transactions).2.1,
      (syncLoop gw 0 store.transactions).2.2.1, ?_, syncLoop_counts gw 0 store.transactions⟩
    simp [syncOfflineTransactions, hp]
  · simp [syncOfflineTransactions, hp]
  · have hlen : (store.transactions.filter isPending).length ≠ 0 := by
      simp [hp, List.length_eq_zero]
    simp [syncOfflineTransactions, hp, hlen, syncLoop_calls gw 0 store.transactions]
  · intro i
    have hall := List.filter_eq_nil_iff.mp hp
    simp only [syncOfflineTransactions, hp]
    rcases hi : store.transactions[i]? with _ | t
    · simp [hi]
    · have : ¬ (isPending t = true) := hall t (List.getElem?_mem hi)
      simp [hi, this]
  · intro i
    have hlen : (store.transactions.filter isPending).length ≠ 0 := by
      simp [hp, List.length_eq_zero]
    simp [syncOfflineTransactions, hlen, syncLoop_get gw 0 store.transactions i]
  · simp [syncOfflineTransactions, hp]
  · have hlen : (store.transactions.filter isPending).length ≠ 0 := by
      simp [hp, List.length_eq_zero]
    simp [syncOfflineTransactions, hlen]
  · simp [syncOfflineTransactions, hp]
  · have hlen : (store.transactions.filter isPending).length ≠ 0 := by
      simp [hp, List.length_eq_zero]
    simp [syncOfflineTransactions, hlen]

/-- A sample queued offline transaction, used to instantiate the sync
theorems on concrete data. -/
def sampleTx : Transaction :=
  { transactionId := "offline-1-2", customerId := some 1, cardId := "AB",
    type := "payment", amount := 500, items := [], status := "pending",
    offlineCreated := true, synced := false, syncError := none, createdAt := 1 }

/-- A store holding exactly the one queued offline transaction. -/
def sampleStore : Store := { customers := [], cardIndex := [], transactions := [sampleTx] }

/-- Witness for C1: on an empty cache the sync returns the zero result with
no gateway call, and on a cache holding one pending offline transaction an
accepting gateway leaves the stored record completed and synced. -/
theorem syncOfflineTransactions_C1_witness :
    syncOfflineTransactions false (fun _ => none) emptyStore =
      (Except.ok { success := 0, failed := 0, total := 0 }, emptyStore, []) ∧
    (syncOfflineTransactions false (fun _ => none) sampleStore).2.1.transactions[0]? =
      some { sampleTx with status := "completed", synced := true } := by
  refine ⟨(syncOfflineTransactions_C1 (fun _ => none) emptyStore).2.1 rfl, ?_⟩
  exact ((syncOfflineTransactions_C1 (fun _ => none) sampleStore).2.2.2.2.1 0).trans (by decide)

/-- C10: a sync pass rewrites a selected (pending offline) stored record, at
its position, to exactly `applySyncOutcome` of the server's answer, and that
update (i) changes nothing but `status` and `synced` on success, leaving
`syncError` alone, (ii) changes nothing but `syncError` on failure, leaving
`status = 'pending'` and `synced` alone, (iii) keeps `offlineCreated = true`
on the persisted record — only the wire copy is stripped of it — so a
synced record is excluded from later passes solely because its `status` is
no longer `'pending'`, while a failed record stays selected. -/
theorem sync_frame_C10 :
    (∀ (gw : Nat → Option String) (store : Store) (i : Nat) (t : Transaction),
        store.transactions[i]? = some t → isPending t = true →
        (syncOfflineTransactions false gw store).2.1.transactions[i]? =
          some (applySyncOutcome (gw (pendingBefore store.transactions i)) t)) ∧
    (∀ (r : Option String) (t : Transaction),
        (applySyncOutcome r t).transactionId = t.transactionId ∧
        (applySyncOutcome r t).customerId = t.customerId ∧
        (applySyncOutcome r t).cardId = t.cardId ∧
        (applySyncOutcome r t).type = t.type ∧
        (applySyncOutcome r t).amount = t.amount ∧
        (applySyncOutcome r t).items = t.items ∧
        (applySyncOutcome r t).createdAt = t.createdAt ∧
        (applySyncOutcome r t).offlineCreated = t.offlineCreated) ∧
    (∀ t, (applySyncOutcome none t).status = "completed" ∧
        (applySyncOutcome none t).synced = true ∧
        (applySyncOutcome none t).syncError = t.syncError) ∧
    (∀ e t, (applySyncOutcome (some e) t).syncError = some e ∧
        (applySyncOutcome (some e) t).status = t.status ∧
        (applySyncOutcome (some e) t).synced = t.synced) ∧
    (∀ t, isPending t = true →
        (applySyncOutcome none t).offlineCreated = true ∧
        (applySyncOutcome none t).status ≠ "pending" ∧
        isPending (applySyncOutcome none t) = false) ∧
    (∀ e t, isPending (applySyncOutcome (some e) t) = isPending t) ∧
    (∀ t, (stripOffline t).offlineCreated = false ∧
        (stripOffline t).transactionId = t.transactionId ∧
        (stripOffline t).status = t.status ∧
        (stripOffline t).amount = t.amount) := by
  refine ⟨?_, ?_, ?_, ?_, ?_, ?_, ?_⟩
  · intro gw store i t hi hpend
    have hne : store.transactions.filter isPending ≠ [] := by
      intro hnil
      exact absurd hpend (List.filter_eq_nil_iff.mp hnil t (List.getElem?_mem hi))
    have hlen : (store.transactions.filter isPending).length ≠ 0 := by
      simp [hne, List.length_eq_zero]
    simp [syncOfflineTransactions, hlen, syncLoop_get gw 0 store.transactions i, hi, hpend]
  · intro r t
    rcases r with _ | e <;> simp [applySyncOutcome]
  · intro t
    simp [applySyncOutcome]
  · intro e t
    simp [applySyncOutcome]
  · intro t ht
    have : t.offlineCreated = true := by
      simp [isPending] at ht
      exact ht.1
    simp [applySyncOutcome, isPending, this]
  · intro e t
    simp [applySyncOutcome, isPending]
  · intro t
    simp [stripOffline]

/-- Witness for C10: the pending sample transaction, accepted by the
gateway, is stored back completed, synced, and still `offlineCreated`. -/
theorem sync_frame_C10_witness :
    (syncOfflineTransactions false (fun _ => none) sampleStore).2.1.transactions[0]? =
      some (applySyncOutcome none sampleTx) ∧
    (applySyncOutcome none sampleTx).offlineCreated = true ∧
    isPending (applySyncOutcome none sampleTx) = false := by
  refine ⟨sync_frame_C10.1 (fun _ => none) sampleStore 0 sampleTx (by decide) (by decide), ?_, ?_⟩
  · exact (sync_frame_C10.2.2.2.2.1 sampleTx (by decide)).1
  · exact (sync_frame_C10.2.2.2.2.1 sampleTx (by decide)).2.2

/-! ## Claim theorems: Local Cache Store -/

/-- C9: `cacheOfflineCustomer` (the spec's `putCustomer`) upserts the given
customer by `id` into the full cached collection (append when the id is
fresh) and rewrites only that customer's own `cardId` entry of the card-id
index: every other key's entry is left unchanged, and interleaved puts for
two different `cardId`s leave both index entries intact. -/
theorem cacheOfflineCustomer_frame_C9 :
    (∀ (c : Customer) (store : Store) (k : String), k ≠ c.cardId →
        getKey k (cacheOfflineCustomer c store).cardIndex = getKey k store.cardIndex) ∧
    (∀ (c : Customer) (store : Store), c.cardId ≠ "" →
        getKey c.cardId (cacheOfflineCustomer c store).cardIndex = some c) ∧
    (∀ (c : Customer) (store : Store), c ∈ (cacheOfflineCustomer c store).customers) ∧
    (∀ (c : Customer) (store : Store), (∀ x ∈ store.customers, x.id ≠ c.id) →
        (cacheOfflineCustomer c store).customers = store.customers ++ [c]) ∧
    (∀ (c₁ c₂ : Customer) (store : Store),
        c₁.cardId ≠ "" → c₂.cardId ≠ "" → c₁.cardId ≠ c₂.cardId →
        getKey c₁.cardId
            (cacheOfflineCustomer c₂ (cacheOfflineCustomer c₁ store)).cardIndex = some c₁ ∧
        getKey c₂.cardId
            (cacheOfflineCustomer c₂ (cacheOfflineCustomer c₁ store)).cardIndex = some c₂) := by
  have hframe : ∀ (c : Customer) (store : Store) (k : String), k ≠ c.cardId →
      getKey k (cacheOfflineCustomer c store).cardIndex = getKey k store.cardIndex := by
    intro c store k hk
    by_cases hc : c.cardId = "" <;>
      simp [cacheOfflineCustomer, hc, getKey_setKey_ne c.cardId k c hk]
  have hown : ∀ (c : Customer) (store : Store), c.cardId ≠ "" →
      getKey c.cardId (cacheOfflineCustomer c store).cardIndex = some c := by
    intro c store hc
    simp [cacheOfflineCustomer, hc, getKey_setKey_self]
  refine ⟨hframe, hown, ?_, ?_, ?_⟩
  · intro c store
    simpa [cacheOfflineCustomer] using mem_upsertById c store.customers
  · intro c store h
    simp [cacheOfflineCustomer, upsertById_of_fresh c store.customers h]
  · intro c₁ c₂ store h₁ h₂ hne
    exact ⟨(hframe c₂ (cacheOfflineCustomer c₁ store) c₁.cardId hne).trans (hown c₁ store h₁),
      hown c₂ (cacheOfflineCustomer c₁ store) h₂⟩

/-- Witness for C9: two interleaved puts for different card ids on the empty
store leave both index entries intact, and the untouched key reads back
unchanged. -/
theorem cacheOfflineCustomer_frame_C9_witness :
    getKey "AA"
        (cacheOfflineCustomer ⟨2, "Bo", "BB", 7⟩
          (cacheOfflineCustomer ⟨1, "Ana", "AA", 5⟩ emptyStore)).cardIndex =
      some ⟨1, "Ana", "AA", 5⟩ ∧
    getKey "BB"
        (cacheOfflineCustomer ⟨2, "Bo", "BB", 7⟩
          (cacheOfflineCustomer ⟨1, "Ana", "AA", 5⟩ emptyStore)).cardIndex =
      some ⟨2, "Bo", "BB", 7⟩ ∧
    (cacheOfflineCustomer ⟨1, "Ana", "AA", 5⟩ emptyStore).customers = [⟨1, "Ana", "AA", 5⟩] := by
  refine ⟨(cacheOfflineCustomer_frame_C9.2.2.2.2 ⟨1, "Ana", "AA", 5⟩ ⟨2, "Bo", "BB", 7⟩
      emptyStore (by decide) (by decide) (by decide)).1,
    (cacheOfflineCustomer_frame_C9.2.2.2.2 ⟨1, "Ana", "AA", 5⟩ ⟨2, "Bo", "BB", 7⟩
      emptyStore (by decide) (by decide) (by decide)).2, ?_⟩
  exact (cacheOfflineCustomer_frame_C9.2.2.2.1 ⟨1, "Ana", "AA", 5⟩ emptyStore
    (by decide)).trans (by decide)

/-- C7 as stated is false on the code: the cache layer never normalizes card
ids.  Caching a customer whose `cardId` is the lowercase `"ab"` keys the
index by the raw string `"ab"`, so looking up `"ab"` and looking up its
uppercase-hex normalization `"AB" = normalizeCardId "ab"` do not identify
the same cached customer, and the index is not keyed by normalized ids. -/
theorem getByCardId_C7_counterexample :
    ¬ (getOfflineCustomerByCardId "ab"
          (cacheOfflineCustomer ⟨1, "Ana", "ab", 0⟩ emptyStore) =
        getOfflineCustomerByCardId (normalizeCardId "ab")
          (cacheOfflineCustomer ⟨1, "Ana", "ab", 0⟩ emptyStore)) ∧
    normalizeCardId "ab" = "AB" ∧
    (cacheOfflineCustomer ⟨1, "Ana", "ab", 0⟩ emptyStore).cardIndex.map Prod.fst = ["ab"] := by
  refine ⟨?_, by decide, by decide⟩
  intro h
  exact absurd h (by decide)

/-- C7 amended: every comparison, lookup, and persistence-key use of a card
id in the cache layer operates on the raw `cardId` string verbatim —
`cacheOfflineCustomer` keys the index by the customer's own raw `cardId`
and `getByCardId` looks up exactly the string it is given — so
`getByCardId c` retrieves a customer cached under exactly `c`, and
`getByCardId c` and `getByCardId (normalizeCardId c)` identify the same
cached customer only when `c` is already in normalized form
(`normalizeCardId c = c`; normalization helpers exist in the formatters but
are not applied on this path). -/
theorem getByCardId_raw_key_C7 :
    (∀ (gw : Option Customer) (c : Customer) (store : Store), c.cardId ≠ "" →
        (getByCardId true gw c.cardId (cacheOfflineCustomer c store)).1 = some c) ∧
    (∀ (gw : Option Customer) (k : String) (store : Store), normalizeCardId k = k →
        getByCardId true gw k store = getByCardId true gw (normalizeCardId k) store) := by
  constructor
  · intro gw c store hc
    simp [getByCardId, getOfflineCustomerByCardId, cacheOfflineCustomer, hc,
      getKey_setKey_self]
  · intro gw k store hk
    rw [hk]

/-- Witness for the amended C7: a customer cached under the raw id `"ab"`
is found again at exactly `"ab"`, and lookups at an already-normalized id
agree with their normalization. -/
theorem getByCardId_raw_key_C7_witness :
    (getByCardId true none "ab"
        (cacheOfflineCustomer ⟨1, "Ana", "ab", 0⟩ emptyStore)).1 = some ⟨1, "Ana", "ab", 0⟩ ∧
    getByCardId true none "AB" emptyStore =
      getByCardId true none (normalizeCardId "AB") emptyStore := by
  exact ⟨getByCardId_raw_key_C7.1 none ⟨1, "Ana", "ab", 0⟩ emptyStore (by decide),
    getByCardId_raw_key_C7.2 none "AB" emptyStore (by decide)⟩

/-- Witness for C5: creating a payment of 5 currency units for customer 1
while offline records the transaction (500 cents) and passes the debit
delta `-5` to `updateBalance`; the customer is absent from the cache, so
the balance step fails and is swallowed while the transaction stays
persisted. -/
theorem create_balance_debit_C5_witness :
    (create ⟨true, none, none, 111, 5⟩
        ⟨some 1, "AB", "payment", 5, []⟩ emptyStore).balCall = some (1, -5) ∧
    (create ⟨true, none, none, 111, 5⟩
        ⟨some 1, "AB", "payment", 5, []⟩ emptyStore).store.transactions.length = 1 := by
  have hamt : amountToCents 5 = 500 := by
    rw [show (5 : ℚ) = ((500 : ℤ) : ℚ) / 100 by norm_num, ← centsToAmount_eq_div,
      amountToCents_centsToAmount]
  have hmt : (create ⟨true, none, none, 111, 5⟩
      ⟨some 1, "AB", "payment", 5, []⟩ emptyStore).tx.customerId = some 1 := by
    simp [create, createOfflineTransaction, processTransactionData, updateBalance,
      updateOfflineBalance, getOfflineCustomerById, emptyStore]
  have hamount : (create ⟨true, none, none, 111, 5⟩
      ⟨some 1, "AB", "payment", 5, []⟩ emptyStore).tx.amount = 500 := by
    simp [create, createOfflineTransaction, processTransactionData, updateBalance,
      updateOfflineBalance, getOfflineCustomerById, emptyStore, hamt]
  have h := create_balance_debit_C5 ⟨true, none, none, 111, 5⟩
    ⟨some 1, "AB", "payment", 5, []⟩ emptyStore 1 hmt (by decide)
  constructor
  · rw [h.1, hamount, centsToAmount_eq_div]
    norm_num
  · rw [h.2.2.1 (Or.inl rfl)]
    simp [emptyStore]

end NFCPay
